import Mathlib

/-!
Shallow embedding of the song/playlist purchase backend
(`src/backend/song_app` and `src/backend/playlist_app`).

Money: the source works with Python `Decimal` values carrying two decimal
places (`DecimalField(decimal_places=2)`, literals like `Decimal('10.00')`).
All arithmetic performed on them in the source is addition and comparison,
so we embed a decimal amount exactly as its integer number of cents
(`Decimal('10.00')` is `1000`).  `float(...)` conversions in the source
happen only at the serialization boundary and are not modelled.
-/

/-- A Song row (`song_app/models.py`): id, title, length in seconds,
price in cents. `created_at`/`updated_at`/`date_released` play no role in
the claims and are omitted. -/
structure Song where
  id : Int
  title : String
  length : Int
  price : Int
  deriving DecidableEq, Repr

/-- A Playlist row together with its many-to-many song association
(`playlist_app/models.py`).  The association is an unordered set in the
store; the list here is the order `playlist.songs.all()` yields. -/
structure Playlist where
  id : Int
  name : String
  songs : List Song
  deriving DecidableEq, Repr

/-- The dict returned by each gateway's `process_payment`
(`song_app/payment_gateways.py`).  `premium_features` is a key present
only in the expensive gateway's dict, hence an `Option`.  `amount` keeps
the exact cents value (the source applies `float` at this boundary). -/
structure TransactionResult where
  success : Bool
  gateway : String
  amount : Int
  transaction_id : String
  status : String
  song_ids : List Int
  message : String
  premium_features : Option Bool
  deriving DecidableEq, Repr

/-- The two gateway variants (`CheapPaymentGateway`,
`ExpensivePaymentGateway`). -/
inductive PaymentGateway where
  | cheap
  | expensive
  deriving DecidableEq, Repr

/-- `CheapPaymentGateway.process_payment`.  `addr` stands for the value of
`id(object())` used in the transaction id: the interpreter-chosen address
of a freshly allocated, immediately freed object; it is input state, not
something the function controls.  `int(amount * 100)` on a two-decimal
amount is exactly the cents value.  A raised `ValueError` is an
`Except.error`. -/
def CheapPaymentGateway.process_payment (addr : Nat) (amount : Int)
    (song_ids : List Int) : Except String TransactionResult :=
  if amount ≥ 1000 then
    Except.error "CheapPaymentGateway can only process amounts under $10"
  else
    Except.ok
      { success := true
        gateway := "CheapPaymentGateway"
        amount := amount
        transaction_id := "CHEAP-" ++ toString addr ++ "-" ++ toString amount
        status := "completed"
        song_ids := song_ids
        message := "Payment processed successfully via CheapPaymentGateway"
        premium_features := none }

/-- `ExpensivePaymentGateway.process_payment`; same conventions as the
cheap variant, plus the `premium_features` key. -/
def ExpensivePaymentGateway.process_payment (addr : Nat) (amount : Int)
    (song_ids : List Int) : Except String TransactionResult :=
  if amount < 1000 then
    Except.error "ExpensivePaymentGateway should be used for amounts $10 or over"
  else
    Except.ok
      { success := true
        gateway := "ExpensivePaymentGateway"
        amount := amount
        transaction_id := "EXP-" ++ toString addr ++ "-" ++ toString amount
        status := "completed"
        song_ids := song_ids
        message := "Payment processed successfully via ExpensivePaymentGateway"
        premium_features := some true }

/-- `get_payment_gateway`: the factory selecting a variant by amount. -/
def get_payment_gateway (amount : Int) : PaymentGateway :=
  if amount ≥ 1000 then PaymentGateway.expensive else PaymentGateway.cheap

/-- Dynamic dispatch of `process_payment` over the selected variant. -/
def PaymentGateway.process_payment :
    PaymentGateway → Nat → Int → List Int → Except String TransactionResult
  | PaymentGateway.cheap => CheapPaymentGateway.process_payment
  | PaymentGateway.expensive => ExpensivePaymentGateway.process_payment

/-- A Python value that may arrive in the `song_ids` field of the request
body (`views.py`, `request.data.get`).  Lists are modelled as lists of
integer identifiers, the only element type the claims range over. -/
inductive PyValue where
  | pyNone
  | pyBool (b : Bool)
  | pyInt (n : Int)
  | pyStr (s : String)
  | pyList (xs : List Int)
  deriving DecidableEq, Repr

/-- Python truthiness, as tested by `if not song_ids:`. -/
def PyValue.truthy : PyValue → Bool
  | PyValue.pyNone => false
  | PyValue.pyBool b => b
  | PyValue.pyInt n => n != 0
  | PyValue.pyStr s => s != ""
  | PyValue.pyList xs => !xs.isEmpty

/-- `isinstance(song_ids, list)`. -/
def PyValue.isList : PyValue → Bool
  | PyValue.pyList _ => true
  | _ => false

/-- The 200 body assembled by `SongViewSet.purchase` on success. -/
structure PurchaseOk where
  success : Bool
  message : String
  total_price : Int
  songs_purchased : List Song
  payment_info : TransactionResult
  deriving DecidableEq, Repr

/-- The possible responses of `SongViewSet.purchase`: 400, 404 (carrying
the `missing_ids` set), 200, and the 500 produced by the blanket
`except Exception` handler. -/
inductive PurchaseResponse where
  | badRequest (error : String)
  | notFound (missing : Finset Int)
  | okResp (body : PurchaseOk)
  | serverError (error : String)
  deriving DecidableEq

/-- `SongViewSet.purchase` (`song_app/views.py`).  `store` is the Song
table, `addr` the `id(object())` value consumed by the gateway call, and
`body` the request's `song_ids` field (`none` when absent; `request.data.get`
then supplies the default `[]`, an empty Python list).
`Song.objects.filter(id__in=song_ids)` keeps table order and never
duplicates a row; `sum((song.price for song in songs), Decimal('0.00'))`
is a left fold starting from 0.  A `ValueError` escaping the gateway is
caught by the `except Exception` clause and surfaced as a 500. -/
def purchase (store : List Song) (addr : Nat) (body : Option PyValue) :
    PurchaseResponse :=
  let song_ids := body.getD (PyValue.pyList [])
  if !song_ids.truthy then
    PurchaseResponse.badRequest "Please provide song_ids list"
  else if !song_ids.isList then
    PurchaseResponse.badRequest "song_ids must be a list"
  else
    match song_ids with
    | PyValue.pyList ids =>
      let songs := store.filter (fun s => ids.contains s.id)
      if songs.length ≠ ids.length then
        PurchaseResponse.notFound
          (ids.toFinset \ (songs.map Song.id).toFinset)
      else
        let total_price := (songs.map Song.price).foldl (· + ·) 0
        let gateway := get_payment_gateway total_price
        match gateway.process_payment addr total_price ids with
        | Except.ok payment_result =>
          PurchaseResponse.okResp
            { success := true
              message := "Purchase completed successfully"
              total_price := total_price
              songs_purchased := songs
              payment_info := payment_result }
        | Except.error e => PurchaseResponse.serverError e
    | _ => PurchaseResponse.badRequest "song_ids must be a list"

/-- `Playlist.get_total_duration`: Python `sum(song.length for song in
self.songs.all())`, a left fold from the int 0. -/
def Playlist.get_total_duration (p : Playlist) : Int :=
  (p.songs.map Song.length).foldl (· + ·) 0

/-- `Playlist.get_total_price`: Python `sum((song.price for song in
self.songs.all()), Decimal('0.00'))`, a left fold from 0.00. -/
def Playlist.get_total_price (p : Playlist) : Int :=
  (p.songs.map Song.price).foldl (· + ·) 0

/-- What `PlaylistSerializer` exposes: the fields plus the two computed
totals (`total_price` kept in exact cents; the serializer's `float` is a
boundary conversion). -/
structure PlaylistRepr where
  id : Int
  name : String
  songs : List Song
  total_duration : Int
  total_price : Int
  deriving DecidableEq, Repr

/-- `PlaylistSerializer(playlist).data`. -/
def serializePlaylist (p : Playlist) : PlaylistRepr :=
  { id := p.id
    name := p.name
    songs := p.songs
    total_duration := p.get_total_duration
    total_price := p.get_total_price }

/-- The 200 body of `PlaylistViewSet.shuffle`: always a `message` key; a
`playlist` key only when the shuffling branch runs. -/
structure ShuffleOk where
  message : String
  playlist : Option PlaylistRepr
  deriving DecidableEq, Repr

/-- Responses of `PlaylistViewSet.shuffle`: the 404 `NotFound` raised on
an unknown id, or a 200 body. -/
inductive ShuffleResponse where
  | notFound (detail : String)
  | ok (body : ShuffleOk)
  deriving DecidableEq, Repr

/-- `PlaylistViewSet.shuffle` (`playlist_app/views.py`).  `store` is the
Playlist table and `rand` the permutation `random.shuffle` applies to the
fetched song list (nondeterministic input state; `random.shuffle`
guarantees only that its output is a permutation of its input, which
theorems take as a hypothesis).  `clear()` followed by `set(songs)`
rewrites the association to exactly the shuffled songs.  Returns the
response and the updated table. -/
def shuffle (store : List Playlist) (pk : Int)
    (rand : List Song → List Song) : ShuffleResponse × List Playlist :=
  match store.find? (fun q => q.id == pk) with
  | none => (ShuffleResponse.notFound "Playlist not found", store)
  | some pl =>
    let songs := pl.songs
    if songs.length < 2 then
      (ShuffleResponse.ok
        { message := "Playlist has fewer than 2 songs, no shuffle needed"
          playlist := none }, store)
    else
      let newPl : Playlist := { pl with songs := rand songs }
      (ShuffleResponse.ok
        { message := "Playlist shuffled successfully"
          playlist := some (serializePlaylist newPl) },
       store.map (fun q => if q.id == pk then newPl else q))

/-! Concrete fixtures used by witnesses and counterexamples. -/

/-- A 3.00 song. -/
def songA : Song := { id := 1, title := "Song A", length := 180, price := 300 }

/-- A 4.00 song. -/
def songB : Song := { id := 2, title := "Song B", length := 200, price := 400 }

/-- A 12.00 song. -/
def songC : Song := { id := 3, title := "Song C", length := 240, price := 1200 }

/-- A 5.00 song. -/
def songD : Song := { id := 4, title := "Song D", length := 150, price := 500 }

/-- Another 5.00 song. -/
def songE : Song := { id := 5, title := "Song E", length := 160, price := 500 }

/-! Helper lemmas shared by the claim theorems. -/

/-- Python `sum` is a left fold; relate it to `List.sum`. -/
theorem foldl_add_eq_add_sum (l : List Int) (a : Int) :
    l.foldl (· + ·) a = a + l.sum := by
  induction l generalizing a with
  | nil => simp
  | cons x xs ih => simp [List.foldl_cons, ih, List.sum_cons]; ring

/-- The ids of the rows `filter(id__in=ids)` keeps, as a list. -/
def foundIds (store : List Song) (ids : List Int) : List Int :=
  (store.filter (fun s => ids.contains s.id)).map Song.id

theorem foundIds_nodup (store : List Song) (ids : List Int)
    (hstore : (store.map Song.id).Nodup) : (foundIds store ids).Nodup := by
  refine List.Nodup.sublist ?_ hstore
  exact List.Sublist.map Song.id (List.filter_sublist store)

theorem mem_foundIds (store : List Song) (ids : List Int) (i : Int) :
    i ∈ foundIds store ids ↔ i ∈ ids ∧ ∃ s ∈ store, s.id = i := by
  simp only [foundIds, List.mem_map, List.mem_filter]
  constructor
  · rintro ⟨s, ⟨hs, hc⟩, rfl⟩
    exact ⟨by simpa using hc, s, hs, rfl⟩
  · rintro ⟨hi, s, hs, rfl⟩
    exact ⟨s, ⟨hs, by simpa using hi⟩, rfl⟩

/-- The count check `songs.count() != len(song_ids)` passes exactly when
the id list is duplicate-free and every id resolves (ids are unique in
the Song table, so the filter keeps one row per matching distinct id). -/
theorem filter_length_eq_iff (store : List Song) (ids : List Int)
    (hstore : (store.map Song.id).Nodup) :
    (store.filter (fun s => ids.contains s.id)).length = ids.length ↔
      ids.Nodup ∧ ∀ i ∈ ids, ∃ s ∈ store, s.id = i := by
  have hlen : (store.filter (fun s => ids.contains s.id)).length
      = (foundIds store ids).length := by simp [foundIds]
  have hnd := foundIds_nodup store ids hstore
  have hcardF : (foundIds store ids).toFinset.card = (foundIds store ids).length :=
    List.toFinset_card_of_nodup hnd
  have hsub : (foundIds store ids).toFinset ⊆ ids.toFinset := by
    intro i hi
    rw [List.mem_toFinset] at hi ⊢
    exact ((mem_foundIds store ids i).1 hi).1
  have hle : ids.toFinset.card ≤ ids.length := List.toFinset_card_le ids
  constructor
  · intro h
    have hfl : (foundIds store ids).toFinset.card = ids.length := by
      rw [hcardF, ← hlen, h]
    have hcards : ids.toFinset.card = ids.length :=
      le_antisymm hle (hfl ▸ Finset.card_le_card hsub)
    have hdedup : ids.dedup = ids := by
      refine List.Sublist.eq_of_length (List.dedup_sublist ids) ?_
      rw [← List.card_toFinset, hcards]
    have hnodup : ids.Nodup := List.dedup_eq_self.mp hdedup
    have hset : (foundIds store ids).toFinset = ids.toFinset :=
      Finset.eq_of_subset_of_card_le hsub (by rw [hfl, hcards])
    refine ⟨hnodup, fun i hi => ?_⟩
    have : i ∈ (foundIds store ids).toFinset := by
      rw [hset, List.mem_toFinset]; exact hi
    exact ((mem_foundIds store ids i).1 (List.mem_toFinset.mp this)).2
  · rintro ⟨hnodup, hall⟩
    have hset : (foundIds store ids).toFinset = ids.toFinset := by
      refine Finset.Subset.antisymm hsub (fun i hi => ?_)
      rw [List.mem_toFinset] at hi ⊢
      exact (mem_foundIds store ids i).2 ⟨hi, hall i hi⟩
    rw [hlen, ← hcardF, hset, List.toFinset_card_of_nodup hnodup]

/-- C1: for every amount p the selector returns the basic (cheap) variant
exactly when p < 10.00 and the premium (expensive) variant exactly when
p ≥ 10.00; the boundary p = 10.00 selects the premium variant. -/
theorem get_payment_gateway_threshold (p : Int) :
    (get_payment_gateway p = PaymentGateway.cheap ↔ p < 1000) ∧
    (get_payment_gateway p = PaymentGateway.expensive ↔ 1000 ≤ p) ∧
    get_payment_gateway 1000 = PaymentGateway.expensive := by
  refine ⟨?_, ?_, by decide⟩ <;>
    by_cases h : 1000 ≤ p <;>
      simp [get_payment_gateway, h] <;> omega

/-- C2: the basic variant's processPayment fails with a domain error iff
the amount is ≥ 10.00, the premium variant's iff the amount is < 10.00;
when a variant does not fail it returns a success result carrying status
"completed", the variant's name, the amount and the input song ids. -/
theorem processPayment_domain_spec (addr : Nat) (a : Int) (ids : List Int) :
    ((CheapPaymentGateway.process_payment addr a ids).isOk = false ↔ 1000 ≤ a) ∧
    ((ExpensivePaymentGateway.process_payment addr a ids).isOk = false ↔ a < 1000) ∧
    (∀ r, CheapPaymentGateway.process_payment addr a ids = Except.ok r →
      r.success = true ∧ r.status = "completed" ∧
      r.gateway = "CheapPaymentGateway" ∧ r.amount = a ∧ r.song_ids = ids) ∧
    (∀ r, ExpensivePaymentGateway.process_payment addr a ids = Except.ok r →
      r.success = true ∧ r.status = "completed" ∧
      r.gateway = "ExpensivePaymentGateway" ∧ r.amount = a ∧ r.song_ids = ids) := by
  refine ⟨?_, ?_, ?_, ?_⟩
  · unfold CheapPaymentGateway.process_payment
    by_cases h : 1000 ≤ a <;> simp [h, Except.isOk, Except.toBool]
  · unfold ExpensivePaymentGateway.process_payment
    by_cases h : a < 1000 <;> simp [h, Except.isOk, Except.toBool]
  · intro r hr
    unfold CheapPaymentGateway.process_payment at hr
    by_cases h : 1000 ≤ a
    · simp [h] at hr
    · simp [h] at hr
      cases hr
      simp
  · intro r hr
    unfold ExpensivePaymentGateway.process_payment at hr
    by_cases h : a < 1000
    · simp [h] at hr
    · simp [h] at hr
      cases hr
      simp

/-- Witness for C2 at address 0, amount 5.00, song ids [1, 2]. -/
theorem processPayment_domain_spec_witness :
    ((CheapPaymentGateway.process_payment 0 500 [1, 2]).isOk = false ↔ (1000 : Int) ≤ 500) ∧
    ((ExpensivePaymentGateway.process_payment 0 500 [1, 2]).isOk = false ↔ (500 : Int) < 1000) ∧
    (∀ r, CheapPaymentGateway.process_payment 0 500 [1, 2] = Except.ok r →
      r.success = true ∧ r.status = "completed" ∧
      r.gateway = "CheapPaymentGateway" ∧ r.amount = 500 ∧ r.song_ids = [1, 2]) ∧
    (∀ r, ExpensivePaymentGateway.process_payment 0 500 [1, 2] = Except.ok r →
      r.success = true ∧ r.status = "completed" ∧
      r.gateway = "ExpensivePaymentGateway" ∧ r.amount = 500 ∧ r.song_ids = [1, 2]) :=
  processPayment_domain_spec 0 500 [1, 2]

/-- C3 (refuted on the code): the transaction id is built only from
`id(object())` — the address of a freshly allocated and immediately freed
temporary, which CPython routinely reuses on the next allocation — and
the integer cents of the amount.  Two sequential calls that observe the
same reused address and charge the same amount return identical
transaction ids even for different song lists, contradicting the claimed
uniqueness (and the repository's own `test_transaction_id_uniqueness`). -/
theorem transaction_id_collision :
    ∃ r1 r2,
      CheapPaymentGateway.process_payment 139781234567890 500 [1] = Except.ok r1 ∧
      CheapPaymentGateway.process_payment 139781234567890 500 [2] = Except.ok r2 ∧
      r1.transaction_id = r2.transaction_id :=
  ⟨_, _, rfl, rfl, rfl⟩

/-- The variant the factory picks for an amount accepts that amount. -/
theorem gateway_dispatch_ok (p : Int) (addr : Nat) (ids : List Int) :
    ∃ r, (get_payment_gateway p).process_payment addr p ids = Except.ok r := by
  by_cases h : 1000 ≤ p
  · simp [get_payment_gateway, h, PaymentGateway.process_payment,
      ExpensivePaymentGateway.process_payment, not_lt.mpr h]
  · simp [get_payment_gateway, h, PaymentGateway.process_payment,
      CheapPaymentGateway.process_payment]

/-- C6: for every total price p, processPayment on the variant the
selector returns for p never takes the defensive domain-error branch. -/
theorem selected_gateway_never_fails (p : Int) (addr : Nat) (ids : List Int) :
    ∃ r, (get_payment_gateway p).process_payment addr p ids = Except.ok r :=
  gateway_dispatch_ok p addr ids

/-- C10: the aggregate calculator returns the sum of member lengths and
the exact decimal sum of member prices, and 0 / 0.00 on an empty
playlist; it is a pure read with no error condition. -/
theorem aggregate_totals_spec (p : Playlist) :
    p.get_total_duration = (p.songs.map Song.length).sum ∧
    p.get_total_price = (p.songs.map Song.price).sum ∧
    (p.songs = [] → p.get_total_duration = 0 ∧ p.get_total_price = 0) := by
  refine ⟨?_, ?_, fun h => ?_⟩
  · simp [Playlist.get_total_duration, foldl_add_eq_add_sum]
  · simp [Playlist.get_total_price, foldl_add_eq_add_sum]
  · simp [Playlist.get_total_duration, Playlist.get_total_price, h]

/-- An empty playlist fixture. -/
def emptyPlaylist : Playlist := { id := 7, name := "Empty Playlist", songs := [] }

/-- Witness for C10 at the empty playlist. -/
theorem aggregate_totals_spec_witness :
    emptyPlaylist.get_total_duration = (emptyPlaylist.songs.map Song.length).sum ∧
    emptyPlaylist.get_total_price = (emptyPlaylist.songs.map Song.price).sum ∧
    (emptyPlaylist.songs = [] →
      emptyPlaylist.get_total_duration = 0 ∧ emptyPlaylist.get_total_price = 0) :=
  aggregate_totals_spec emptyPlaylist

/-- C7: a purchase request whose song_ids field is absent, an empty list,
or not a list fails with a validation error (HTTP 400 bad request),
detected before any state is touched, and does not crash: every such
input lands in one of the two early-return 400 branches. -/
theorem purchase_invalid_song_ids_bad_request (store : List Song) (addr : Nat)
    (body : Option PyValue)
    (h : body = none ∨ body = some (PyValue.pyList []) ∨
      ∀ xs, body ≠ some (PyValue.pyList xs)) :
    ∃ e, purchase store addr body = PurchaseResponse.badRequest e := by
  rcases h with rfl | rfl | h
  · exact ⟨_, rfl⟩
  · exact ⟨_, rfl⟩
  · match body with
    | none => exact ⟨_, rfl⟩
    | some PyValue.pyNone => exact ⟨_, rfl⟩
    | some (PyValue.pyBool b) => cases b <;> exact ⟨_, rfl⟩
    | some (PyValue.pyInt n) =>
      by_cases hn : n = 0
      · subst hn; exact ⟨_, rfl⟩
      · exact ⟨"song_ids must be a list",
          by simp [purchase, PyValue.truthy, PyValue.isList, hn]⟩
    | some (PyValue.pyStr s) =>
      by_cases hs : s = ""
      · subst hs; exact ⟨_, rfl⟩
      · exact ⟨"song_ids must be a list",
          by simp [purchase, PyValue.truthy, PyValue.isList, hs]⟩
    | some (PyValue.pyList xs) => exact absurd rfl (h xs)

/-- Witness for C7 with the song_ids field absent. -/
theorem purchase_invalid_song_ids_bad_request_witness :
    ((none : Option PyValue) = none ∨ (none : Option PyValue) = some (PyValue.pyList []) ∨
      ∀ xs, (none : Option PyValue) ≠ some (PyValue.pyList xs)) ∧
    ∃ e, purchase [songA] 0 none = PurchaseResponse.badRequest e :=
  ⟨Or.inl rfl, purchase_invalid_song_ids_bad_request [songA] 0 none (Or.inl rfl)⟩

/-- Two lists that are permutations of one another have the same
element set. -/
theorem perm_toFinset_eq {l1 l2 : List Song} (h : l1.Perm l2) :
    l1.toFinset = l2.toFinset := by
  ext s
  simp [List.mem_toFinset, h.mem_iff]

/-- Rewriting every row matching `pk` to the updated playlist makes the
lookup of `pk` return that playlist, provided the lookup succeeded
before and the update keeps the id. -/
theorem find_map_update (store : List Playlist) (pk : Int) (newPl : Playlist)
    (hnew : (newPl.id == pk) = true)
    (hsome : ((store.find? (fun q => q.id == pk)).isSome) = true) :
    (store.map (fun q => if q.id == pk then newPl else q)).find?
      (fun q => q.id == pk) = some newPl := by
  induction store with
  | nil => simp at hsome
  | cons a l ih =>
    by_cases ha : (a.id == pk) = true
    · have hnew2 : newPl.id = pk := by simpa using hnew
      rw [List.map_cons, if_pos ha, List.find?_cons]
      simp [hnew2]
    · have haf : (a.id == pk) = false := by simpa using ha
      rw [List.find?_cons] at hsome
      simp only [haf] at hsome
      rw [List.map_cons, if_neg ha, List.find?_cons]
      simp only [haf]
      exact ih hsome

/-- A successful lookup by id pins the id of the playlist found. -/
theorem find_playlist_id {store : List Playlist} {pk : Int} {pl : Playlist}
    (h : store.find? (fun q => q.id == pk) = some pl) : pl.id = pk := by
  induction store with
  | nil => simp at h
  | cons a l ih =>
    rw [List.find?_cons] at h
    by_cases ha : (a.id == pk) = true
    · simp only [ha] at h
      cases h
      simpa using ha
    · have haf : (a.id == pk) = false := by simpa using ha
      simp only [haf] at h
      exact ih h

/-- C8: shuffle preserves the playlist's member set: with fewer than 2
songs it is a no-op success carrying the "no shuffle needed" message and
the store is untouched; with 2 or more songs the stored association is
replaced by the permutation `random.shuffle` produced, so the member set
after the operation equals the member set before. -/
theorem shuffle_preserves_member_set (store : List Playlist) (pk : Int)
    (rand : List Song → List Song) (pl : Playlist)
    (hfind : store.find? (fun q => q.id == pk) = some pl)
    (hperm : (rand pl.songs).Perm pl.songs) :
    (pl.songs.length < 2 →
      shuffle store pk rand =
        (ShuffleResponse.ok
          { message := "Playlist has fewer than 2 songs, no shuffle needed"
            playlist := none }, store)) ∧
    ∃ pl2, ((shuffle store pk rand).2.find? (fun q => q.id == pk)) = some pl2 ∧
      pl2.songs.toFinset = pl.songs.toFinset := by
  have hid : (pl.id == pk) = true := by simpa using find_playlist_id hfind
  by_cases hlen : pl.songs.length < 2
  · refine ⟨fun _ => ?_, pl, ?_, rfl⟩
    · simp [shuffle, hfind, hlen]
    · simp [shuffle, hfind, hlen, hfind]
  · refine ⟨fun hc => absurd hc hlen, { pl with songs := rand pl.songs }, ?_, ?_⟩
    · have : (shuffle store pk rand).2 =
          store.map (fun q => if q.id == pk then { pl with songs := rand pl.songs } else q) := by
        simp [shuffle, hfind, hlen]
      rw [this]
      exact find_map_update store pk _ hid (by simp [hfind])
    · exact perm_toFinset_eq hperm

/-- A one-song playlist fixture. -/
def singlePlaylist : Playlist := { id := 11, name := "Single Song Playlist", songs := [songA] }

/-- A two-song playlist fixture. -/
def pairPlaylist : Playlist := { id := 12, name := "Pair Playlist", songs := [songA, songB] }

/-- Witness for C8: a two-song playlist shuffled by reversal. -/
theorem shuffle_preserves_member_set_witness :
    ([pairPlaylist].find? (fun q => q.id == 12) = some pairPlaylist) ∧
    ((List.reverse pairPlaylist.songs).Perm pairPlaylist.songs) ∧
    (pairPlaylist.songs.length < 2 →
      shuffle [pairPlaylist] 12 List.reverse =
        (ShuffleResponse.ok
          { message := "Playlist has fewer than 2 songs, no shuffle needed"
            playlist := none }, [pairPlaylist])) ∧
    ∃ pl2, ((shuffle [pairPlaylist] 12 List.reverse).2.find?
        (fun q => q.id == 12)) = some pl2 ∧
      pl2.songs.toFinset = pairPlaylist.songs.toFinset :=
  ⟨by decide, by decide,
    shuffle_preserves_member_set [pairPlaylist] 12 List.reverse pairPlaylist
      (by decide) (by decide)⟩

/-- C9 (refuted on the code): shuffling an existing playlist that has
fewer than 2 songs returns a 200 response that carries only the message;
the body has no playlist representation at all, contradicting the claim
that every successful shuffle response contains both. -/
theorem shuffle_small_playlist_missing_repr :
    ∃ body, (shuffle [singlePlaylist] 11 id).1 = ShuffleResponse.ok body ∧
      body.playlist = none :=
  ⟨{ message := "Playlist has fewer than 2 songs, no shuffle needed"
     playlist := none }, by decide, rfl⟩

/-- C9 amended: every successful shuffle response contains a message;
for playlists with 2 or more songs it also contains the refreshed
playlist representation whose totals are recomputed by the aggregate
calculator over the rewritten association; the sub-2-song no-op response
contains only the message and no playlist representation. -/
theorem shuffle_response_payload (store : List Playlist) (pk : Int)
    (rand : List Song → List Song) (pl : Playlist)
    (hfind : store.find? (fun q => q.id == pk) = some pl) :
    ∃ body, (shuffle store pk rand).1 = ShuffleResponse.ok body ∧
      body.message ≠ "" ∧
      (2 ≤ pl.songs.length →
        ∃ rep, body.playlist = some rep ∧
          rep.songs = rand pl.songs ∧
          rep.total_duration =
            Playlist.get_total_duration { pl with songs := rand pl.songs } ∧
          rep.total_price =
            Playlist.get_total_price { pl with songs := rand pl.songs }) ∧
      (pl.songs.length < 2 → body.playlist = none) := by
  by_cases hlen : pl.songs.length < 2
  · refine ⟨{ message := "Playlist has fewer than 2 songs, no shuffle needed"
              playlist := none }, ?_, ?_, ?_, ?_⟩
    · simp [shuffle, hfind, hlen]
    · simp
    · intro h2; omega
    · intro _; rfl
  · refine ⟨{ message := "Playlist shuffled successfully"
              playlist := some (serializePlaylist { pl with songs := rand pl.songs }) },
        ?_, ?_, ?_, ?_⟩
    · simp [shuffle, hfind, hlen]
    · simp
    · intro _
      exact ⟨serializePlaylist { pl with songs := rand pl.songs }, rfl, rfl, rfl, rfl⟩
    · intro hc; exact absurd hc hlen

/-- Witness for C9 on a two-song playlist shuffled by reversal. -/
theorem shuffle_response_payload_witness :
    ∃ body, (shuffle [pairPlaylist] 12 List.reverse).1 = ShuffleResponse.ok body ∧
      body.message ≠ "" ∧
      (2 ≤ pairPlaylist.songs.length →
        ∃ rep, body.playlist = some rep ∧
          rep.songs = List.reverse pairPlaylist.songs ∧
          rep.total_duration =
            Playlist.get_total_duration { pairPlaylist with songs := List.reverse pairPlaylist.songs } ∧
          rep.total_price =
            Playlist.get_total_price { pairPlaylist with songs := List.reverse pairPlaylist.songs }) ∧
      (pairPlaylist.songs.length < 2 → body.playlist = none) :=
  shuffle_response_payload [pairPlaylist] 12 List.reverse pairPlaylist (by decide)

/-- Unfolding of `purchase` on a present, non-empty list body: the two
validation branches are passed and the fetch/count/payment pipeline
runs. -/
theorem purchase_cons_reduce (store : List Song) (addr : Nat) (a : Int)
    (as : List Int) :
    purchase store addr (some (PyValue.pyList (a :: as))) =
      (if (store.filter (fun s => (a :: as).contains s.id)).length ≠ (a :: as).length then
        PurchaseResponse.notFound
          ((a :: as).toFinset \
            ((store.filter (fun s => (a :: as).contains s.id)).map Song.id).toFinset)
      else
        match (get_payment_gateway
            (((store.filter (fun s => (a :: as).contains s.id)).map Song.price).foldl (· + ·) 0)).process_payment
            addr
            (((store.filter (fun s => (a :: as).contains s.id)).map Song.price).foldl (· + ·) 0)
            (a :: as) with
        | Except.ok payment_result =>
          PurchaseResponse.okResp
            { success := true
              message := "Purchase completed successfully"
              total_price :=
                ((store.filter (fun s => (a :: as).contains s.id)).map Song.price).foldl (· + ·) 0
              songs_purchased := store.filter (fun s => (a :: as).contains s.id)
              payment_info := payment_result }
        | Except.error e => PurchaseResponse.serverError e) := rfl

/-- C4 (refuted on the code): with the store holding exactly song 1 and
the request [1, 1], every requested identifier resolves to a stored
song, yet the purchase fails with a not-found error — the count check
compares the number of fetched rows with the raw list length — and the
error names the empty set. -/
theorem purchase_duplicate_ids_notfound :
    (∀ i ∈ [(1 : Int), 1], ∃ s ∈ [songA], s.id = i) ∧
    purchase [songA] 0 (some (PyValue.pyList [1, 1])) =
      PurchaseResponse.notFound ∅ := by
  refine ⟨by decide, by decide⟩

/-- C4 amended: a purchase with a present, non-empty id list fails with
a not-found error iff the list contains a duplicate or some identifier
resolves to no stored song; the error names the set difference between
the requested and the found identifiers (empty when only duplicates
caused the failure); a duplicate-free, fully resolving list proceeds to
payment. -/
theorem purchase_notFound_characterization (store : List Song) (addr : Nat)
    (ids : List Int) (hne : ids ≠ [])
    (hstore : (store.map Song.id).Nodup) :
    ((∃ m, purchase store addr (some (PyValue.pyList ids)) = PurchaseResponse.notFound m)
        ↔ ¬ids.Nodup ∨ ∃ i ∈ ids, ∀ s ∈ store, s.id ≠ i) ∧
    (∀ m, purchase store addr (some (PyValue.pyList ids)) = PurchaseResponse.notFound m →
        m = ids.toFinset \ (foundIds store ids).toFinset) ∧
    (ids.Nodup → (∀ i ∈ ids, ∃ s ∈ store, s.id = i) →
        ∃ body, purchase store addr (some (PyValue.pyList ids)) =
          PurchaseResponse.okResp body) := by
  obtain ⟨a, as, rfl⟩ : ∃ a as, ids = a :: as := by
    cases ids with
    | nil => exact absurd rfl hne
    | cons a as => exact ⟨a, as, rfl⟩
  rw [purchase_cons_reduce]
  have hiff := filter_length_eq_iff store (a :: as)
  by_cases hc : (store.filter (fun s => (a :: as).contains s.id)).length = (a :: as).length
  · obtain ⟨r, hr⟩ := gateway_dispatch_ok
      (((store.filter (fun s => (a :: as).contains s.id)).map Song.price).foldl (· + ·) 0)
      addr (a :: as)
    rw [if_neg (not_not_intro hc), hr]
    refine ⟨?_, ?_, ?_⟩
    · constructor
      · rintro ⟨m, hm⟩; cases hm
      · intro hbad
        rcases (hiff hstore).mp hc with ⟨hnodup, hall⟩
        rcases hbad with hdup | ⟨i, hi, hforall⟩
        · exact (hdup hnodup).elim
        · rcases hall i hi with ⟨s, hs, hsid⟩
          exact (hforall s hs hsid).elim
    · intro m hm; cases hm
    · intro _ _; exact ⟨_, rfl⟩
  · rw [if_pos hc]
    refine ⟨?_, ?_, ?_⟩
    · constructor
      · intro _
        by_contra hcon
        push_neg at hcon
        exact hc ((hiff hstore).mpr ⟨hcon.1, hcon.2⟩)
      · intro _; exact ⟨_, rfl⟩
    · intro m hm
      injection hm with h
      exact h.symm
    · intro hnodup hall
      exact absurd ((hiff hstore).mpr ⟨hnodup, hall⟩) hc

/-- Witness for C4: a two-song table and the duplicate-free request
[1, 2] that resolves fully. -/
theorem purchase_notFound_characterization_witness :
    ([(1 : Int), 2] ≠ []) ∧ (([songA, songB].map Song.id).Nodup) ∧
    (((∃ m, purchase [songA, songB] 0 (some (PyValue.pyList [1, 2])) = PurchaseResponse.notFound m)
        ↔ ¬([(1 : Int), 2]).Nodup ∨ ∃ i ∈ [(1 : Int), 2], ∀ s ∈ [songA, songB], s.id ≠ i) ∧
    (∀ m, purchase [songA, songB] 0 (some (PyValue.pyList [1, 2])) = PurchaseResponse.notFound m →
        m = ([(1 : Int), 2]).toFinset \ (foundIds [songA, songB] [1, 2]).toFinset) ∧
    (([(1 : Int), 2]).Nodup → (∀ i ∈ [(1 : Int), 2], ∃ s ∈ [songA, songB], s.id = i) →
        ∃ body, purchase [songA, songB] 0 (some (PyValue.pyList [1, 2])) =
          PurchaseResponse.okResp body)) :=
  ⟨by decide, by decide,
    purchase_notFound_characterization [songA, songB] 0 [1, 2] (by decide) (by decide)⟩

/-- C5 (refuted on the code): the store holds exactly song 2 and the
request is [2, 2]; every requested identifier resolves, yet the purchase
produces no successful response at all — the count check 404s on the
duplicate — so the claimed payload never materializes. -/
theorem purchase_all_resolved_not_success :
    (∀ i ∈ [(2 : Int), 2], ∃ s ∈ [songB], s.id = i) ∧
    purchase [songB] 0 (some (PyValue.pyList [2, 2])) =
      PurchaseResponse.notFound ∅ ∧
    ∀ body, PurchaseResponse.notFound ∅ ≠ PurchaseResponse.okResp body :=
  ⟨by decide, by decide, fun _ h => by cases h⟩

/-- C5 amended: for a purchase whose song_ids is a non-empty,
duplicate-free list in which every identifier resolves, the response is
successful and carries total_price equal to the exact decimal sum of the
resolved songs' prices, the full details of the purchased songs, and the
transaction result produced by the gateway selected with that sum
(e.g. 3.00 + 4.00 = 7.00 via the basic variant, 5.00 + 5.00 = 10.00 via
the premium variant). -/
theorem purchase_success_payload (store : List Song) (addr : Nat)
    (ids : List Int) (hne : ids ≠ []) (hstore : (store.map Song.id).Nodup)
    (hids : ids.Nodup) (hall : ∀ i ∈ ids, ∃ s ∈ store, s.id = i) :
    ∃ r, (get_payment_gateway
          (((store.filter (fun s => ids.contains s.id)).map Song.price).sum)).process_payment
          addr (((store.filter (fun s => ids.contains s.id)).map Song.price).sum) ids =
        Except.ok r ∧
      purchase store addr (some (PyValue.pyList ids)) =
        PurchaseResponse.okResp
          { success := true
            message := "Purchase completed successfully"
            total_price := ((store.filter (fun s => ids.contains s.id)).map Song.price).sum
            songs_purchased := store.filter (fun s => ids.contains s.id)
            payment_info := r } := by
  obtain ⟨a, as, rfl⟩ : ∃ a as, ids = a :: as := by
    cases ids with
    | nil => exact absurd rfl hne
    | cons a as => exact ⟨a, as, rfl⟩
  have hfold : ((store.filter (fun s => (a :: as).contains s.id)).map Song.price).foldl (· + ·) 0
      = ((store.filter (fun s => (a :: as).contains s.id)).map Song.price).sum := by
    rw [foldl_add_eq_add_sum]; ring
  have hc : (store.filter (fun s => (a :: as).contains s.id)).length = (a :: as).length :=
    (filter_length_eq_iff store (a :: as) hstore).mpr ⟨hids, hall⟩
  obtain ⟨r, hr⟩ := gateway_dispatch_ok
    (((store.filter (fun s => (a :: as).contains s.id)).map Song.price).sum) addr (a :: as)
  refine ⟨r, hr, ?_⟩
  rw [purchase_cons_reduce, if_neg (not_not_intro hc), hfold, hr]

/-- Witness for C5 at the inclusive boundary: two 5.00 songs sum to
exactly 10.00 and go through the premium variant. -/
theorem purchase_success_payload_witness :
    ∃ r, (get_payment_gateway
          ((([songD, songE].filter (fun s => ([4, 5] : List Int).contains s.id)).map Song.price).sum)).process_payment
          0 ((([songD, songE].filter (fun s => ([4, 5] : List Int).contains s.id)).map Song.price).sum) [4, 5] =
        Except.ok r ∧
      purchase [songD, songE] 0 (some (PyValue.pyList [4, 5])) =
        PurchaseResponse.okResp
          { success := true
            message := "Purchase completed successfully"
            total_price := (([songD, songE].filter (fun s => ([4, 5] : List Int).contains s.id)).map Song.price).sum
            songs_purchased := [songD, songE].filter (fun s => ([4, 5] : List Int).contains s.id)
            payment_info := r } :=
  purchase_success_payload [songD, songE] 0 [4, 5] (by decide) (by decide)
    (by decide) (by decide)
